import Mathlib

set_option maxRecDepth 10000

/- Verification of the described-functions repository: a Tool invocation pipeline
wrapping a described unit of work (local function or HTTP endpoint) with schema
validation and caching.  The development embeds the two ToolClass variants found in
the repository (the TypeBox-based module, called V1 below, and the Ajv-based module,
called V2 below) together with the cache key derivation from src/cache.ts. -/

/- JSON-like runtime values.  JavaScript objects are modelled as ordered field lists
(JavaScript preserves string-key insertion order, which JSON.stringify and SuperJSON
follow).  The undef constructor models the JavaScript value undefined, which is also
what the Keyv store returns on a cache miss. -/

mutual

inductive JsVal : Type where
| undef : JsVal
| null : JsVal
| bool : Bool → JsVal
| num : Int → JsVal
| str : String → JsVal
| obj : JsFields → JsVal
| arr : JsArr → JsVal

inductive JsFields : Type where
| nil : JsFields
| cons : String → JsVal → JsFields → JsFields

inductive JsArr : Type where
| nil : JsArr
| cons : JsVal → JsArr → JsArr

end

mutual

def jsValBeq : JsVal → JsVal → Bool
| .undef, .undef => true
| .null, .null => true
| .bool a, .bool b => a == b
| .num a, .num b => a == b
| .str a, .str b => a == b
| .obj a, .obj b => jsFieldsBeq a b
| .arr a, .arr b => jsArrBeq a b
| _, _ => false

def jsFieldsBeq : JsFields → JsFields → Bool
| .nil, .nil => true
| .cons k v r, .cons k2 v2 r2 => k == k2 && jsValBeq v v2 && jsFieldsBeq r r2
| _, _ => false

def jsArrBeq : JsArr → JsArr → Bool
| .nil, .nil => true
| .cons v r, .cons v2 r2 => jsValBeq v v2 && jsArrBeq r r2
| _, _ => false

end

/- JavaScript truthiness: undefined, null, false, 0 and the empty string are falsy;
every object and array is truthy. -/
def truthy : JsVal → Bool
| .undef => false
| .null => false
| .bool b => b
| .num n => n != 0
| .str s => s != ""
| .obj _ => true
| .arr _ => true

/- Structural equality of values: same keys and same nested values, in any insertion
order.  Defined by sorting every object field list by key (insertion sort over a
lexicographic byte order) and comparing the canonical forms. -/

def charListLe : List Char → List Char → Bool
| [], _ => true
| _ :: _, [] => false
| a :: as, b :: bs =>
  if a.toNat < b.toNat then true
  else if b.toNat < a.toNat then false
  else charListLe as bs

def strLeB (a b : String) : Bool := charListLe a.data b.data

def fieldsInsert (k : String) (v : JsVal) : JsFields → JsFields
| .nil => .cons k v .nil
| .cons k2 v2 rest =>
  if strLeB k k2 then .cons k v (.cons k2 v2 rest)
  else .cons k2 v2 (fieldsInsert k v rest)

mutual

def canon : JsVal → JsVal
| .obj fs => .obj (canonFields fs)
| .arr es => .arr (canonArr es)
| .undef => .undef
| .null => .null
| .bool b => .bool b
| .num n => .num n
| .str s => .str s

def canonFields : JsFields → JsFields
| .nil => .nil
| .cons k v rest => fieldsInsert k (canon v) (canonFields rest)

def canonArr : JsArr → JsArr
| .nil => .nil
| .cons v rest => .cons (canon v) (canonArr rest)

end

def structEq (a b : JsVal) : Bool := jsValBeq (canon a) (canon b)

/- Serialization.  SuperJSON.stringify(x) returns JSON.stringify of a wrapper object
whose json property holds x (the meta property is absent for plain JSON data, the
only values used here).  JSON.stringify emits object properties in insertion order:
it does not sort keys.  The model covers plain JSON data without undefined holes. -/

def jsonEscapeChar (c : Char) : String :=
  if c = '\"' then "\\\""
  else if c = '\\' then "\\\\"
  else if c = '\n' then "\\n"
  else String.singleton c

def jsonEscape (s : String) : String := String.join (s.data.map jsonEscapeChar)

def intRepr (n : Int) : String :=
  if n < 0 then "-" ++ Nat.repr n.natAbs else Nat.repr n.natAbs

mutual

def jsonStringify : JsVal → String
| .undef => "null"
| .null => "null"
| .bool b => if b then "true" else "false"
| .num n => intRepr n
| .str s => "\"" ++ jsonEscape s ++ "\""
| .obj fs => "\x7b" ++ jsonFieldsStringify fs ++ "\x7d"
| .arr es => "[" ++ jsonArrStringify es ++ "]"

def jsonFieldsStringify : JsFields → String
| .nil => ""
| .cons k v .nil => "\"" ++ jsonEscape k ++ "\":" ++ jsonStringify v
| .cons k v (.cons k2 v2 rest) =>
  "\"" ++ jsonEscape k ++ "\":" ++ jsonStringify v ++ "," ++
    jsonFieldsStringify (.cons k2 v2 rest)

def jsonArrStringify : JsArr → String
| .nil => ""
| .cons v .nil => jsonStringify v
| .cons v (.cons v2 rest) => jsonStringify v ++ "," ++ jsonArrStringify (.cons v2 rest)

end

def superJSONStringify (v : JsVal) : String :=
  "\x7b\"json\":" ++ jsonStringify v ++ "\x7d"

/- SHA-1 (RFC 3174) over a byte sequence, with 32-bit words as Nat mod 2^32.  The
repository computes the hash with the node crypto module (an external collaborator);
the algorithm is embedded here so that key derivation is fully executable. -/

def w32 : Nat := 4294967296

def rotl (s x : Nat) : Nat := ((x <<< s) ||| (x >>> (32 - s))) % w32

def sha1F (i b c d : Nat) : Nat :=
  if i < 20 then (b &&& c) ||| ((b ^^^ 4294967295) &&& d)
  else if i < 40 then b ^^^ c ^^^ d
  else if i < 60 then (b &&& c) ||| (b &&& d) ||| (c &&& d)
  else b ^^^ c ^^^ d

def sha1K (i : Nat) : Nat :=
  if i < 20 then 1518500249
  else if i < 40 then 1859775393
  else if i < 60 then 2400959708
  else 3395469782

def bytesToWords : List Nat → List Nat
| b0 :: b1 :: b2 :: b3 :: rest =>
  (((b0 * 256 + b1) * 256 + b2) * 256 + b3) :: bytesToWords rest
| _ => []

def sha1Extend : Nat → Array Nat → Array Nat
| 0, ws => ws
| n + 1, ws =>
  let i := ws.size
  let w := rotl 1 ((ws.getD (i - 3) 0) ^^^ (ws.getD (i - 8) 0) ^^^
    (ws.getD (i - 14) 0) ^^^ (ws.getD (i - 16) 0))
  sha1Extend n (ws.push w)

def sha1Loop : Nat → Nat → Array Nat → Nat → Nat → Nat → Nat → Nat →
    Nat × Nat × Nat × Nat × Nat
| 0, _, _, a, b, c, d, e => (a, b, c, d, e)
| n + 1, i, ws, a, b, c, d, e =>
  let t := (rotl 5 a + sha1F i b c d + e + sha1K i + ws.getD i 0) % w32
  sha1Loop n (i + 1) ws t a (rotl 30 b) c d

def sha1Compress (h : Nat × Nat × Nat × Nat × Nat) (block : List Nat) :
    Nat × Nat × Nat × Nat × Nat :=
  let ws := sha1Extend 64 (bytesToWords block).toArray
  match h with
  | (h0, h1, h2, h3, h4) =>
    match sha1Loop 80 0 ws h0 h1 h2 h3 h4 with
    | (a, b, c, d, e) =>
      ((h0 + a) % w32, (h1 + b) % w32, (h2 + c) % w32, (h3 + d) % w32, (h4 + e) % w32)

def toBytesBE : Nat → Nat → List Nat
| 0, _ => []
| m + 1, v => toBytesBE m (v / 256) ++ [v % 256]

def sha1Pad (msg : List Nat) : List Nat :=
  let len := msg.length
  let zeros := (119 - (len % 64)) % 64
  msg ++ [128] ++ List.replicate zeros 0 ++ toBytesBE 8 (len * 8)

def chunk64 : Nat → List Nat → List (List Nat)
| 0, _ => []
| _, [] => []
| n + 1, a :: l => ((a :: l).take 64) :: chunk64 n ((a :: l).drop 64)

def hexDigit (n : Nat) : Char :=
  if n < 10 then Char.ofNat (48 + n) else Char.ofNat (87 + n)

def byteToHex (b : Nat) : String :=
  String.singleton (hexDigit (b / 16 % 16)) ++ String.singleton (hexDigit (b % 16))

def wordToHex (v : Nat) : String := String.join ((toBytesBE 4 v).map byteToHex)

def sha1Bytes (msg : List Nat) : String :=
  let padded := sha1Pad msg
  match (chunk64 padded.length padded).foldl sha1Compress
      (1732584193, 4023233417, 2562383102, 271733878, 3285377520) with
  | (h0, h1, h2, h3, h4) =>
    wordToHex h0 ++ wordToHex h1 ++ wordToHex h2 ++ wordToHex h3 ++ wordToHex h4

def strBytes (s : String) : List Nat := s.data.map (fun c => c.toNat)

def sha1Hex (s : String) : String := sha1Bytes (strBytes s)

/- Embedding of hashObjectSHA1 (src/cache.ts lines 62-72): SuperJSON.stringify the
value, then SHA-1 of the resulting text, rendered as lowercase hex. -/
def hashObjectSHA1 (v : JsVal) : String := sha1Hex (superJSONStringify v)

/- Embedding of ToolClass.keyFactory (TypeBox module): prefix, colon, hash. -/
def keyFactory (pfx : String) (input : JsVal) : String :=
  pfx ++ ":" ++ hashObjectSHA1 input


/- ------------------------------------------------------------------ -/
/- The Tool invocation pipeline.                                       -/
/- ------------------------------------------------------------------ -/

inductive Intent : Type where
| resource : Intent
| action : Intent
deriving DecidableEq, BEq

structure VErr where
  path : String
  message : String
deriving DecidableEq, BEq

inductive Side : Type where
| input : Side
| result : Side
deriving DecidableEq, BEq

/- Every way an invocation can reject.  The two TypeError constructors model the
JavaScript runtime errors raised by reading a property of undefined: reading
options.cache when invoke was called without an options argument, and reading
compiledResultSchema.Errors when result validation was disabled at construction. -/
inductive InvokeErr : Type where
| typeErrorUndefinedOptions : InvokeErr
| typeErrorNoResultSchema : InvokeErr
| validation : Option Side → List VErr → InvokeErr
| dispatch : String → InvokeErr
| cacheGet : String → InvokeErr
| cacheSet : String → InvokeErr

/- A cache store capability: get and set, both of which may reject (the promise
returned by an external store can fail).  The state type sigma is the internal
state of the store; get is a pure read, set returns the updated state. -/
structure StoreBehavior (σ : Type) where
  get : σ → String → Except String JsVal
  set : σ → String → JsVal → Nat → Except String σ

def memLookup : List (String × JsVal) → String → Option JsVal
| [], _ => none
| (k, v) :: rest, key => if k == key then some v else memLookup rest key

def memInsert : List (String × JsVal) → String → JsVal → List (String × JsVal)
| [], key, v => [(key, v)]
| (k, w) :: rest, key, v =>
  if k == key then (key, v) :: rest else (k, w) :: memInsert rest key v

/- The default in-memory store (the Keyv instance backing the TypeBox module, and
the MemoryCache of the Ajv variant, which is imported from a cache module version
that is not in the repository snapshot).  Modelled from the spec: section 4.2
describes it as an in-process mapping from key to entry where get on a missing key
returns absent (undefined here); never rejects.  Expiry is not modelled: within the
TTL a set value is returned by get. -/
def memStore : StoreBehavior (List (String × JsVal)) where
  get s key := .ok (match memLookup s key with | some v => v | none => .undef)
  set s key v _ttl := .ok (memInsert s key v)

structure EndpointSpec where
  method : Option String
  url : String

/- The TypeBox-based ToolClass, written V1 (the module imported as ../src/tool by the
example file).  The compiled schema validators are embedded as functions returning
the full ordered list of violated constraints; per section 4.1 the schema capability
enumerates every violation.  inputValidationOn mirrors the presence of
compiledInputSchema (validateInput !== false at construction), resultValidationOn
the presence of compiledResultSchema. -/
structure ToolV1 where
  name : String
  intents : Option Intent
  cacheTTL : Option Nat
  inputValidationOn : Bool
  resultValidationOn : Bool
  inputErrors : JsVal → List VErr
  resultErrors : JsVal → List VErr
  callFunc : JsVal → Except String JsVal

structure ConfigV1 where
  name : String
  intents : Option Intent
  cacheTTL : Option Nat
  validateInput : Option Bool
  validateResult : Option Bool
  inputErrors : JsVal → List VErr
  resultErrors : JsVal → List VErr
  func : Option (JsVal → Except String JsVal)
  httpEndpoint : Option EndpointSpec

/- The ToolClass constructor of the TypeBox module: rejects a configuration with
neither or both of func and httpEndpoint, then binds callFunc to the function or to
an HTTP dispatcher over the given transport, and records which validation sides were
compiled.  Schema conversion (FromSchema) only normalizes the schema representation
and is absorbed into the validator functions. -/
def makeToolV1 (transport : EndpointSpec → JsVal → Except String JsVal)
    (cfg : ConfigV1) : Except String ToolV1 :=
  if (cfg.func.isNone && cfg.httpEndpoint.isNone) ||
      (cfg.func.isSome && cfg.httpEndpoint.isSome) then
    .error "Tool configuration must have either a function or an endpoint defined."
  else
    .ok
      { name := cfg.name
        intents := cfg.intents
        cacheTTL := cfg.cacheTTL
        inputValidationOn := cfg.validateInput != some false
        resultValidationOn := cfg.validateResult != some false
        inputErrors := cfg.inputErrors
        resultErrors := cfg.resultErrors
        callFunc :=
          match cfg.func with
          | some f => f
          | none =>
            fun input =>
              match cfg.httpEndpoint with
              | some ep => transport ep input
              | none => .error "Tool configuration must have a function or an HTTP endpoint defined." }

/- options.cache in the TypeBox module: absent, false (disable caching) or an ICache
instance used in place of the default store (modelled with the same behavior and its
own state). -/
inductive CacheOptV1 (σ : Type) : Type where
| disabled : CacheOptV1 σ
| override : σ → CacheOptV1 σ

structure InvokeOptionsV1 (σ : Type) where
  cache : Option (CacheOptV1 σ)

/- Observable outcome of one invocation: the settled result, the final state of the
store that the cache logic used (unchanged initial state when caching did not
apply), and counters for dispatches, store reads, store writes, and evaluations of
the compiled result schema. -/
structure InvokeResult (σ : Type) where
  result : Except InvokeErr JsVal
  store : σ
  dispatches : Nat
  gets : Nat
  sets : Nat
  resultValidations : Nat

def cacheNotDisabled {σ : Type} (options : Option (InvokeOptionsV1 σ)) : Bool :=
  match options with
  | none => true
  | some o =>
    match o.cache with
    | some .disabled => false
    | _ => true

def cacheConfigured (ttl : Option Nat) : Bool :=
  match ttl with
  | some n => n != 0
  | none => false

def isResource (t : ToolV1) : Bool :=
  match t.intents with
  | some .resource => true
  | _ => false

/- The tail of invoke: this.validateResult(result) is called unconditionally, so
when result validation was disabled at construction (compiledResultSchema is
undefined) the call raises a TypeError instead of skipping the check.  When the
schema is present, the error iterator is probed with First() and then spread into
the ValidationError, so the carried list is the tail of the full violation list. -/
def finishResultValidation {σ : Type} (t : ToolV1) (r : JsVal) (s : σ)
    (d g st : Nat) : InvokeResult σ :=
  if t.resultValidationOn then
    match (t.resultErrors r).head? with
    | some _ => ⟨.error (.validation (some .result) ((t.resultErrors r).drop 1)), s, d, g, st, 1⟩
    | none => ⟨.ok r, s, d, g, st, 1⟩
  else
    ⟨.error .typeErrorNoResultSchema, s, d, g, st, 0⟩

/- ToolClass.invoke of the TypeBox module, step for step:
1. if compiledInputSchema is set, validate the input (throwing carries the tail of
   the violation list, the first element having been consumed by the First() probe);
2. if options.cache is not false, config.cache is truthy and intents is resource:
   derive the key, resolve the store as options.cache or the default (a TypeError
   when no options argument was passed), get (a rejection propagates), return a
   truthy cached value as is, otherwise dispatch, set (a rejection propagates);
3. otherwise dispatch directly;
4. validate the result unconditionally. -/
def invokeV1 {σ : Type} (t : ToolV1) (B : StoreBehavior σ) (s0 : σ)
    (input : JsVal) (options : Option (InvokeOptionsV1 σ)) : InvokeResult σ :=
  if t.inputValidationOn && ((t.inputErrors input).head?).isSome then
    ⟨.error (.validation (some .input) ((t.inputErrors input).drop 1)), s0, 0, 0, 0, 0⟩
  else if cacheNotDisabled options && cacheConfigured t.cacheTTL && isResource t then
    let key := keyFactory t.name input
    match options with
    | none => ⟨.error .typeErrorUndefinedOptions, s0, 0, 0, 0, 0⟩
    | some o =>
      let s :=
        match o.cache with
        | some (.override st) => st
        | _ => s0
      match B.get s key with
      | .error e => ⟨.error (.cacheGet e), s, 0, 1, 0, 0⟩
      | .ok cached =>
        if truthy cached then
          ⟨.ok cached, s, 0, 1, 0, 0⟩
        else
          match t.callFunc input with
          | .error e => ⟨.error (.dispatch e), s, 1, 1, 0, 0⟩
          | .ok r =>
            match B.set s key r (match t.cacheTTL with | some n => n | none => 0) with
            | .error e => ⟨.error (.cacheSet e), s, 1, 1, 1, 0⟩
            | .ok s2 => finishResultValidation t r s2 1 1 1
  else
    match t.callFunc input with
    | .error e => ⟨.error (.dispatch e), s0, 1, 0, 0, 0⟩
    | .ok r => finishResultValidation t r s0 1 0 0

/- The public validateInput method of the TypeBox module.  Errors(input) yields a
generator-backed iterator; First() advances it to probe for a violation, and the
spread that builds the ValidationError then yields only the remaining elements, so
the carried list is the tail of the full ordered violation list. -/
def validateInputV1 (t : ToolV1) (input : JsVal) : Except InvokeErr Bool :=
  match (t.inputErrors input).head? with
  | some _ => .error (.validation (some .input) ((t.inputErrors input).drop 1))
  | none => .ok true

def carriedViolations : Except InvokeErr Bool → List VErr
| .error (.validation _ l) => l
| _ => []

/- ------------------------------------------------------------------ -/
/- The Ajv-based ToolClass variant, written V2.                        -/
/- ------------------------------------------------------------------ -/

structure ToolV2 where
  name : String
  intents : Option Intent
  cacheTTL : Option Nat
  inputErrors : JsVal → List VErr
  resultErrors : JsVal → List VErr
  callFunc : JsVal → Except String JsVal

structure ConfigV2 where
  name : String
  intents : Option Intent
  cacheTTL : Option Nat
  inputErrors : JsVal → List VErr
  resultErrors : JsVal → List VErr
  func : Option (JsVal → Except String JsVal)
  httpEndpoint : Option EndpointSpec

/- The constructor of the Ajv variant only rejects a configuration with NEITHER func
nor httpEndpoint; a configuration with both is accepted and callFunc is bound to the
function. -/
def makeToolV2 (transport : EndpointSpec → JsVal → Except String JsVal)
    (cfg : ConfigV2) : Except String ToolV2 :=
  if cfg.func.isNone && cfg.httpEndpoint.isNone then
    .error "Tool configuration must have either a function or an endpoint defined."
  else
    .ok
      { name := cfg.name
        intents := cfg.intents
        cacheTTL := cfg.cacheTTL
        inputErrors := cfg.inputErrors
        resultErrors := cfg.resultErrors
        callFunc :=
          match cfg.func with
          | some f => f
          | none =>
            fun input =>
              match cfg.httpEndpoint with
              | some ep => transport ep input
              | none => .error "Tool configuration must have a function or an HTTP endpoint defined." }

/- Models basicAjvValidate of the Ajv variant: the schema is compiled with a default
Ajv instance.  Default Ajv (allErrors not enabled) stops at the first violated
constraint, so validate.errors holds exactly the first violation; the thrown
ValidationError (the Ajv one, which has no input/result side) carries that
one-element list. -/
def basicAjvValidate (errsOf : JsVal → List VErr) (input : JsVal) :
    Except InvokeErr Bool :=
  match (errsOf input).head? with
  | some e => .error (.validation none [e])
  | none => .ok true

/- Models DEFAULT_CACHE_KEY_FACTORY of the Ajv variant: hashObjectSHA1 is async but
its promise is interpolated into the template string without being awaited, so every
derived key is the tool name followed by the text [object Promise]. -/
def keyFactoryV2 (pfx : String) (_input : JsVal) : String :=
  pfx ++ ":[object Promise]"

/- options.cache in the Ajv variant: false, a named cache, or an ICache instance
(modelled as the state of an in-memory store). -/
inductive CacheOptV2 : Type where
| disabled : CacheOptV2
| named : String → CacheOptV2
| instanceOf : List (String × JsVal) → CacheOptV2

structure InvokeOptionsV2 where
  cache : Option CacheOptV2

/- resolveCache of the Ajv variant: undefined and a named cache both produce a
fresh, empty MemoryCache; an instance is used as given. -/
def resolveCacheV2 (c : Option CacheOptV2) : List (String × JsVal) :=
  match c with
  | none => []
  | some (.named _) => []
  | some (.instanceOf s) => s
  | some .disabled => []

structure InvokeResultV2 where
  result : Except InvokeErr JsVal
  store : List (String × JsVal)
  dispatches : Nat
  gets : Nat
  sets : Nat

def cacheNotDisabledV2 (options : Option InvokeOptionsV2) : Bool :=
  match options with
  | none => true
  | some o =>
    match o.cache with
    | some .disabled => false
    | _ => true

/- The code after the caching block of the Ajv variant invoke: it dispatches again
unconditionally (there is no else), then validates the result. -/
def invokeV2Tail (t : ToolV2) (input : JsVal) (s : List (String × JsVal))
    (d g st : Nat) : InvokeResultV2 :=
  match t.callFunc input with
  | .error e => ⟨.error (.dispatch e), s, d + 1, g, st⟩
  | .ok r =>
    match (t.resultErrors r).head? with
    | some e => ⟨.error (.validation none [e]), s, d + 1, g, st⟩
    | none => ⟨.ok r, s, d + 1, g, st⟩

/- invoke of the Ajv variant.  The caching condition tests only options.cache and
config.cache: intents is NOT consulted, so action descriptors with a TTL also use
the cache.  A truthy cached value returns early; on a miss the function is
dispatched, the result stored, and then control falls through to a second,
unconditional dispatch. -/
def invokeV2 (t : ToolV2) (input : JsVal) (options : Option InvokeOptionsV2) :
    InvokeResultV2 :=
  match (t.inputErrors input).head? with
  | some e => ⟨.error (.validation none [e]), [], 0, 0, 0⟩
  | none =>
    if cacheNotDisabledV2 options && cacheConfigured t.cacheTTL then
      let key := keyFactoryV2 t.name input
      match options with
      | none => ⟨.error .typeErrorUndefinedOptions, [], 0, 0, 0⟩
      | some o =>
        let s := resolveCacheV2 o.cache
        let cached := match memLookup s key with | some v => v | none => .undef
        if truthy cached then ⟨.ok cached, s, 0, 1, 0⟩
        else
          match t.callFunc input with
          | .error e => ⟨.error (.dispatch e), s, 1, 1, 0⟩
          | .ok r1 => invokeV2Tail t input (memInsert s key r1) 1 1 1
    else invokeV2Tail t input [] 0 0 0

/- ------------------------------------------------------------------ -/
/- Concrete instances used as witnesses and counterexamples.           -/
/- ------------------------------------------------------------------ -/

def fieldsLookup : JsFields → String → Option JsVal
| .nil, _ => none
| .cons k v rest, key => if k == key then some v else fieldsLookup rest key

def isStr : JsVal → Bool
| .str _ => true
| _ => false

def isNum : JsVal → Bool
| .num _ => true
| _ => false

def extraGreetInputErrs : JsFields → List VErr
| .nil => []
| .cons k _ rest =>
  (if k == "name" || k == "age" then [] else [⟨"/" ++ k, "Unexpected property"⟩]) ++
    extraGreetInputErrs rest

/- Modelled from the spec: the compiled validator of the example input schema
(section 8) with required name : string, optional age : number and
additionalProperties false.  The schema adapter module (src/schema) is not in the
repository snapshot and the compiler is the external TypeBox collaborator; per
section 4.1 the compiled validator enumerates every violated constraint, in order,
with a structured path and a message. -/
def greetInputErrors : JsVal → List VErr
| .obj fs =>
  (match fieldsLookup fs "name" with
   | none => [⟨"/name", "Expected required property name"⟩]
   | some v => if isStr v then [] else [⟨"/name", "Expected string"⟩]) ++
  (match fieldsLookup fs "age" with
   | none => []
   | some v => if isNum v then [] else [⟨"/age", "Expected number"⟩]) ++
  extraGreetInputErrs fs
| _ => [⟨"", "Expected object"⟩]

def extraGreetResultErrs : JsFields → List VErr
| .nil => []
| .cons k _ rest =>
  (if k == "greeting" then [] else [⟨"/" ++ k, "Unexpected property"⟩]) ++
    extraGreetResultErrs rest

/- Modelled from the spec: the compiled validator of the example result schema
(section 8) with required greeting : string and additionalProperties false. -/
def greetResultErrors : JsVal → List VErr
| .obj fs =>
  (match fieldsLookup fs "greeting" with
   | none => [⟨"/greeting", "Expected required property greeting"⟩]
   | some v => if isStr v then [] else [⟨"/greeting", "Expected string"⟩]) ++
  extraGreetResultErrs fs
| _ => [⟨"", "Expected object"⟩]

/- The example greeting function (the func of the greet descriptor). -/
def greetFunc (v : JsVal) : Except String JsVal :=
  match v with
  | .obj fs =>
    let nameStr := match fieldsLookup fs "name" with | some (.str s) => s | _ => ""
    let agePart :=
      match fieldsLookup fs "age" with
      | some (.num n) => if n != 0 then "! You are " ++ intRepr n ++ " years old." else ""
      | _ => ""
    .ok (.obj (.cons "greeting" (.str ("Hello, " ++ nameStr ++ agePart)) .nil))
  | _ => .error "bad input"

def inAlice : JsVal := .obj (.cons "name" (.str "Alice") .nil)

def greetToolV1 : ToolV1 where
  name := "greet"
  intents := some .resource
  cacheTTL := some 60000
  inputValidationOn := true
  resultValidationOn := true
  inputErrors := greetInputErrors
  resultErrors := greetResultErrors
  callFunc := greetFunc

def greetActionToolV1 : ToolV1 where
  name := "greet"
  intents := some .action
  cacheTTL := some 60000
  inputValidationOn := true
  resultValidationOn := true
  inputErrors := greetInputErrors
  resultErrors := greetResultErrors
  callFunc := greetFunc

/- The greet tool constructed with validateResult false: compiledResultSchema stays
undefined. -/
def greetToolV1NoRV : ToolV1 where
  name := "greet"
  intents := some .resource
  cacheTTL := none
  inputValidationOn := true
  resultValidationOn := false
  inputErrors := greetInputErrors
  resultErrors := greetResultErrors
  callFunc := greetFunc

def greetActionToolV2 : ToolV2 where
  name := "greet"
  intents := some .action
  cacheTTL := some 60000
  inputErrors := greetInputErrors
  resultErrors := greetResultErrors
  callFunc := greetFunc

/- A store whose set rejects (for instance an external cache service refusing the
write after a successful dispatch). -/
def failSetStore : StoreBehavior Unit where
  get _ _ := .ok .undef
  set _ _ _ _ := .error "store write failed"

/- A store whose get rejects (for instance an unreachable external cache). -/
def failGetStore : StoreBehavior Unit where
  get _ _ := .error "store read failed"
  set _ _ _ _ := .ok ()

def noTransport : EndpointSpec → JsVal → Except String JsVal :=
  fun _ _ => .error "transport unavailable"

def isOkE {ε α : Type} : Except ε α → Bool
| .ok _ => true
| .error _ => false

/- Two structurally equal objects differing only in key insertion order. -/
def exObjAB : JsVal := .obj (.cons "a" (.num 1) (.cons "b" (.num 2) .nil))

def exObjBA : JsVal := .obj (.cons "b" (.num 2) (.cons "a" (.num 1) .nil))

/- An input violating three independent constraints of the greet input schema:
name is missing, age is not a number, extra is an unexpected property. -/
def badGreetInput : JsVal :=
  .obj (.cons "age" (.str "x") (.cons "extra" (.num 1) .nil))

def c8firstErr : VErr := ⟨"/name", "Expected required property name"⟩

def c8restErrs : List VErr :=
  [⟨"/age", "Expected number"⟩, ⟨"/extra", "Unexpected property"⟩]

def aliceGreeting : JsVal :=
  .obj (.cons "greeting" (.str "Hello, Alice") .nil)

/- A descriptor with BOTH func and httpEndpoint set. -/
def cfgBothV2 : ConfigV2 where
  name := "both"
  intents := none
  cacheTTL := none
  inputErrors := greetInputErrors
  resultErrors := greetResultErrors
  func := some greetFunc
  httpEndpoint := some ⟨some "GET", "http://example.invalid/x"⟩

/- ------------------------------------------------------------------ -/
/- Theorems.                                                           -/
/- ------------------------------------------------------------------ -/

/- Test vector: SHA-1 of the ASCII text abc, checking the embedded algorithm against
the published value. -/
theorem sha1Hex_abc : sha1Hex "abc" = "a9993e364706816aba3e25717850c26c9cd0d89d" := by
  decide

theorem finishResultValidation_store {σ : Type} (t : ToolV1) (r : JsVal) (s : σ)
    (d g st : Nat) : (finishResultValidation t r s d g st).store = s := by
  unfold finishResultValidation
  split
  · split <;> rfl
  · rfl

theorem finishResultValidation_dispatches {σ : Type} (t : ToolV1) (r : JsVal) (s : σ)
    (d g st : Nat) : (finishResultValidation t r s d g st).dispatches = d := by
  unfold finishResultValidation
  split
  · split <;> rfl
  · rfl

theorem finishResultValidation_gets {σ : Type} (t : ToolV1) (r : JsVal) (s : σ)
    (d g st : Nat) : (finishResultValidation t r s d g st).gets = g := by
  unfold finishResultValidation
  split
  · split <;> rfl
  · rfl

theorem finishResultValidation_sets {σ : Type} (t : ToolV1) (r : JsVal) (s : σ)
    (d g st : Nat) : (finishResultValidation t r s d g st).sets = st := by
  unfold finishResultValidation
  split
  · split <;> rfl
  · rfl

/- ===== C1 ===== -/

/-- Claim C1 as stated is refuted: exObjAB and exObjBA are structurally equal (same
keys and nested values, different insertion order), yet the derived cache keys
differ, because SuperJSON.stringify preserves property insertion order and the two
serializations hash to different SHA-1 digests. -/
theorem c1_counterexample :
    structEq exObjAB exObjBA = true ∧
    keyFactory "greet" exObjAB ≠ keyFactory "greet" exObjBA := by
  constructor
  · decide
  · decide

/-- Claim C1, amended: cache key derivation is deterministic only up to the canonical
serialization, which preserves object key insertion order (mapping keys are not
sorted); two inputs receive the same key whenever their SuperJSON serializations
coincide, and structurally equal inputs whose keys are inserted in different orders
can receive different keys. -/
theorem c1_key_eq_of_same_serialization (ns : String) (a b : JsVal)
    (h : superJSONStringify a = superJSONStringify b) :
    keyFactory ns a = keyFactory ns b := by
  unfold keyFactory hashObjectSHA1
  rw [h]

/-- Witness for c1_key_eq_of_same_serialization at a concrete input. -/
theorem c1_key_eq_witness :
    superJSONStringify exObjAB = superJSONStringify exObjAB ∧
    keyFactory "greet" exObjAB = keyFactory "greet" exObjAB :=
  ⟨rfl, c1_key_eq_of_same_serialization "greet" exObjAB exObjAB rfl⟩

/- ===== C7 ===== -/

/-- Claim C7 as stated is refuted: the Ajv-variant ToolClass constructor accepts a
Descriptor with BOTH func and httpEndpoint set and creates a Tool from it (only the
neither-set case is rejected there). -/
theorem c7_counterexample :
    cfgBothV2.func.isSome = true ∧ cfgBothV2.httpEndpoint.isSome = true ∧
    isOkE (makeToolV2 noTransport cfgBothV2) = true :=
  ⟨rfl, rfl, rfl⟩

/-- Claim C7, amended: the TypeBox-module constructor (makeTool / ToolClass) fails
exactly when both func and httpEndpoint are set or neither is set, so no Tool is
created from such a Descriptor there; the Ajv-variant constructor fails exactly when
neither is set, and accepts a Descriptor with both set, binding func. -/
theorem c7_exclusivity_per_variant
    (transport : EndpointSpec → JsVal → Except String JsVal) :
    (∀ cfg : ConfigV1, isOkE (makeToolV1 transport cfg) = false ↔
      ((cfg.func.isNone && cfg.httpEndpoint.isNone) ||
        (cfg.func.isSome && cfg.httpEndpoint.isSome)) = true) ∧
    (∀ cfg : ConfigV2, isOkE (makeToolV2 transport cfg) = false ↔
      (cfg.func.isNone && cfg.httpEndpoint.isNone) = true) := by
  constructor
  · intro cfg
    unfold makeToolV1 isOkE
    by_cases h : ((cfg.func.isNone && cfg.httpEndpoint.isNone) ||
        (cfg.func.isSome && cfg.httpEndpoint.isSome)) = true <;> simp [h]
  · intro cfg
    unfold makeToolV2 isOkE
    by_cases h : (cfg.func.isNone && cfg.httpEndpoint.isNone) = true <;> simp [h]

/- ===== C8 ===== -/

/-- Claim C8 as stated is refuted: for an input violating three independent
constraints of the greet input schema, the ValidationError thrown by the TypeBox
module validateInput carries only two violations, because the First() probe consumes
the first element of the generator-backed error iterator before the remaining
elements are spread into the error. -/
theorem c8_counterexample :
    (greetInputErrors badGreetInput).length = 3 ∧
    (carriedViolations (validateInputV1 greetToolV1 badGreetInput)).length = 2 :=
  ⟨rfl, rfl⟩

/-- Claim C8, amended: for an input violating N independent constraints (N at least
one), validateInput of the TypeBox module throws a ValidationError carrying the last
N - 1 violations in order, the first having been consumed by the iterator probe; the
Ajv variant (basicAjvValidate with a default Ajv instance) throws a ValidationError
carrying exactly the first violation. -/
theorem c8_carried_violations (t : ToolV1) (ef : JsVal → List VErr) (x : JsVal)
    (e : VErr) (es : List VErr)
    (h1 : t.inputErrors x = e :: es) (h2 : ef x = e :: es) :
    validateInputV1 t x = .error (.validation (some .input) es) ∧
    basicAjvValidate ef x = .error (.validation none [e]) := by
  unfold validateInputV1 basicAjvValidate
  rw [h1, h2]
  exact ⟨rfl, rfl⟩

/-- Witness for c8_carried_violations at a concrete input with three violations. -/
theorem c8_carried_violations_witness :
    greetToolV1.inputErrors badGreetInput = c8firstErr :: c8restErrs ∧
    greetInputErrors badGreetInput = c8firstErr :: c8restErrs ∧
    validateInputV1 greetToolV1 badGreetInput =
      .error (.validation (some .input) c8restErrs) ∧
    basicAjvValidate greetInputErrors badGreetInput =
      .error (.validation none [c8firstErr]) := by
  refine ⟨rfl, rfl, ?_, ?_⟩
  · exact (c8_carried_violations greetToolV1 greetInputErrors badGreetInput
      c8firstErr c8restErrs rfl rfl).1
  · exact (c8_carried_violations greetToolV1 greetInputErrors badGreetInput
      c8firstErr c8restErrs rfl rfl).2

/- ===== C2 ===== -/

/-- Claim C2 as stated is refuted: with a store whose set rejects, invoke rejects
with the cache-write failure even though the dispatch succeeded; the computed result
is not returned. -/
theorem c2_counterexample :
    invokeV1 greetToolV1 failSetStore () inAlice (some ⟨none⟩) =
      ⟨.error (.cacheSet "store write failed"), (), 1, 1, 1, 0⟩ := rfl

/-- Claim C2, amended: when caching applies and the lookup misses, a failure of the
cache store set after a successful dispatch propagates out of invoke: the invocation
rejects with the store error and the computed result is not returned (the write is
awaited with no error handler, and nothing is logged). -/
theorem c2_cache_write_failure_propagates {σ : Type} (t : ToolV1)
    (B : StoreBehavior σ) (s0 : σ) (x c r : JsVal) (n : Nat) (e : String)
    (hInt : t.intents = some .resource)
    (hTTL : t.cacheTTL = some n)
    (hn : (n != 0) = true)
    (hIn : t.inputErrors x = [])
    (hGet : B.get s0 (keyFactory t.name x) = .ok c)
    (hTr : truthy c = false)
    (hCall : t.callFunc x = .ok r)
    (hSet : B.set s0 (keyFactory t.name x) r n = .error e) :
    invokeV1 t B s0 x (some ⟨none⟩) = ⟨.error (.cacheSet e), s0, 1, 1, 1, 0⟩ := by
  unfold invokeV1
  simp [cacheNotDisabled, cacheConfigured, isResource, hInt, hTTL, hn, hIn, hGet,
    hTr, hCall, hSet]

/-- Witness for c2_cache_write_failure_propagates at a concrete input. -/
theorem c2_cache_write_failure_witness :
    greetToolV1.intents = some .resource ∧
    greetToolV1.cacheTTL = some 60000 ∧
    ((60000 : Nat) != 0) = true ∧
    greetToolV1.inputErrors inAlice = [] ∧
    failSetStore.get () (keyFactory greetToolV1.name inAlice) = .ok .undef ∧
    truthy .undef = false ∧
    greetToolV1.callFunc inAlice = .ok aliceGreeting ∧
    failSetStore.set () (keyFactory greetToolV1.name inAlice) aliceGreeting 60000 =
      .error "store write failed" ∧
    invokeV1 greetToolV1 failSetStore () inAlice (some ⟨none⟩) =
      ⟨.error (.cacheSet "store write failed"), (), 1, 1, 1, 0⟩ := by
  refine ⟨rfl, rfl, rfl, rfl, rfl, rfl, rfl, rfl, ?_⟩
  exact c2_cache_write_failure_propagates greetToolV1 failSetStore () inAlice .undef
    aliceGreeting 60000 "store write failed" rfl rfl rfl rfl rfl rfl rfl rfl

/- ===== C6 ===== -/

/-- Claim C6 as stated is refuted: with a store whose get rejects, invoke rejects
with the cache-read failure and never dispatches, instead of treating the failure as
a miss. -/
theorem c6_counterexample :
    invokeV1 greetToolV1 failGetStore () inAlice (some ⟨none⟩) =
      ⟨.error (.cacheGet "store read failed"), (), 0, 1, 0, 0⟩ := rfl

/-- Claim C6, amended: when caching applies, a failure of the cache store get on the
read path propagates out of invoke: the invocation rejects with the store error and
no dispatch takes place (the get is awaited with no error handler). -/
theorem c6_cache_read_failure_propagates {σ : Type} (t : ToolV1)
    (B : StoreBehavior σ) (s0 : σ) (x : JsVal) (n : Nat) (e : String)
    (hInt : t.intents = some .resource)
    (hTTL : t.cacheTTL = some n)
    (hn : (n != 0) = true)
    (hIn : t.inputErrors x = [])
    (hGet : B.get s0 (keyFactory t.name x) = .error e) :
    invokeV1 t B s0 x (some ⟨none⟩) = ⟨.error (.cacheGet e), s0, 0, 1, 0, 0⟩ := by
  unfold invokeV1
  simp [cacheNotDisabled, cacheConfigured, isResource, hInt, hTTL, hn, hIn, hGet]

/-- Witness for c6_cache_read_failure_propagates at a concrete input. -/
theorem c6_cache_read_failure_witness :
    greetToolV1.intents = some .resource ∧
    greetToolV1.cacheTTL = some 60000 ∧
    ((60000 : Nat) != 0) = true ∧
    greetToolV1.inputErrors inAlice = [] ∧
    failGetStore.get () (keyFactory greetToolV1.name inAlice) =
      .error "store read failed" ∧
    invokeV1 greetToolV1 failGetStore () inAlice (some ⟨none⟩) =
      ⟨.error (.cacheGet "store read failed"), (), 0, 1, 0, 0⟩ := by
  refine ⟨rfl, rfl, rfl, rfl, rfl, ?_⟩
  exact c6_cache_read_failure_propagates greetToolV1 failGetStore () inAlice 60000
    "store read failed" rfl rfl rfl rfl rfl

/- ===== C5 ===== -/

/-- Claim C5 is right about the intended design and the code deviates on the result
side: with result validation disabled at construction, compiledResultSchema stays
undefined, but invoke still calls this.validateResult unconditionally, so every
invocation that reaches result validation rejects with a TypeError instead of
returning the dispatch result unchecked.  (The input side is guarded and behaves as
the claim says.) -/
theorem c5_disabled_result_validation_raises {σ : Type} (t : ToolV1)
    (B : StoreBehavior σ) (s0 : σ) (x r : JsVal)
    (hRV : t.resultValidationOn = false)
    (hIn : t.inputErrors x = [])
    (hCall : t.callFunc x = .ok r) :
    invokeV1 t B s0 x (some ⟨some .disabled⟩) =
      ⟨.error .typeErrorNoResultSchema, s0, 1, 0, 0, 0⟩ := by
  unfold invokeV1
  simp [cacheNotDisabled, hIn, hCall, finishResultValidation, hRV]

/-- Witness for c5_disabled_result_validation_raises at a concrete input. -/
theorem c5_disabled_result_validation_witness :
    greetToolV1NoRV.resultValidationOn = false ∧
    greetToolV1NoRV.inputErrors inAlice = [] ∧
    greetToolV1NoRV.callFunc inAlice = .ok aliceGreeting ∧
    invokeV1 greetToolV1NoRV memStore [] inAlice (some ⟨some .disabled⟩) =
      ⟨.error .typeErrorNoResultSchema, [], 1, 0, 0, 0⟩ := by
  refine ⟨rfl, rfl, rfl, ?_⟩
  exact c5_disabled_result_validation_raises greetToolV1NoRV memStore [] inAlice
    aliceGreeting rfl rfl rfl

/- ===== C9 ===== -/

/-- Claim C9: for a resource tool with a cache TTL, invoking with the options
argument omitted rejects with a TypeError while resolving the cache store (reading
options.cache on undefined) before any dispatch or store access; passing an options
object without a cache field instead proceeds to consult the default store (one get
is issued against it). -/
theorem c9_missing_options_typeerror {σ : Type} (t : ToolV1) (B : StoreBehavior σ)
    (s0 : σ) (x : JsVal) (n : Nat)
    (hInt : t.intents = some .resource)
    (hTTL : t.cacheTTL = some n)
    (hn : (n != 0) = true)
    (hIn : t.inputErrors x = []) :
    invokeV1 t B s0 x none = ⟨.error .typeErrorUndefinedOptions, s0, 0, 0, 0, 0⟩ ∧
    (invokeV1 t B s0 x (some ⟨none⟩)).gets = 1 := by
  constructor
  · unfold invokeV1
    simp [cacheNotDisabled, cacheConfigured, isResource, hInt, hTTL, hn, hIn]
  · unfold invokeV1
    simp only [cacheNotDisabled, cacheConfigured, isResource, hInt, hTTL, hn, hIn,
      List.head?, Option.isSome, Bool.and_false, Bool.and_true, Bool.true_and,
      Bool.false_eq_true, if_false, if_true]
    rcases hG : B.get s0 (keyFactory t.name x) with e | c
    · simp [hG]
    · simp only [hG]
      by_cases hT : truthy c = true
      · simp [hT]
      · simp only [Bool.not_eq_true] at hT
        simp only [hT]
        rcases hC : t.callFunc x with e2 | r
        · simp [hC]
        · simp only [hC]
          rcases hS : B.set s0 (keyFactory t.name x) r n with e3 | s2
          · simp [hS]
          · simp [hS, finishResultValidation_gets]

/-- Witness for c9_missing_options_typeerror at a concrete input. -/
theorem c9_missing_options_witness :
    greetToolV1.intents = some .resource ∧
    greetToolV1.cacheTTL = some 60000 ∧
    ((60000 : Nat) != 0) = true ∧
    greetToolV1.inputErrors inAlice = [] ∧
    (invokeV1 greetToolV1 memStore [] inAlice none =
      ⟨.error .typeErrorUndefinedOptions, [], 0, 0, 0, 0⟩ ∧
    (invokeV1 greetToolV1 memStore [] inAlice (some ⟨none⟩)).gets = 1) := by
  refine ⟨rfl, rfl, rfl, rfl, ?_⟩
  exact c9_missing_options_typeerror greetToolV1 memStore [] inAlice 60000
    rfl rfl rfl rfl

/- ===== C10 ===== -/

/-- Claim C10: the cache-hit short-circuit tests truthiness, so a stored falsy value
(null, false, 0 or the empty string) is treated as a miss: invoke consults the
store, dispatches the underlying function again and overwrites the cache entry. -/
theorem c10_falsy_cached_redispatch (t : ToolV1) (s0 : List (String × JsVal))
    (x v r : JsVal) (n : Nat)
    (hInt : t.intents = some .resource)
    (hTTL : t.cacheTTL = some n)
    (hn : (n != 0) = true)
    (hIn : t.inputErrors x = [])
    (hL : memLookup s0 (keyFactory t.name x) = some v)
    (hTr : truthy v = false)
    (hCall : t.callFunc x = .ok r) :
    (invokeV1 t memStore s0 x (some ⟨none⟩)).dispatches = 1 ∧
    (invokeV1 t memStore s0 x (some ⟨none⟩)).gets = 1 ∧
    (invokeV1 t memStore s0 x (some ⟨none⟩)).sets = 1 ∧
    (invokeV1 t memStore s0 x (some ⟨none⟩)).store =
      memInsert s0 (keyFactory t.name x) r := by
  unfold invokeV1
  simp [cacheNotDisabled, cacheConfigured, isResource, hInt, hTTL, hn, hIn,
    memStore, hL, hTr, hCall, finishResultValidation_dispatches,
    finishResultValidation_gets, finishResultValidation_sets,
    finishResultValidation_store]

/-- Witness for c10_falsy_cached_redispatch: a store holding false under the greet
key. -/
theorem c10_falsy_cached_witness :
    greetToolV1.intents = some .resource ∧
    greetToolV1.cacheTTL = some 60000 ∧
    ((60000 : Nat) != 0) = true ∧
    greetToolV1.inputErrors inAlice = [] ∧
    memLookup [(keyFactory greetToolV1.name inAlice, JsVal.bool false)]
      (keyFactory greetToolV1.name inAlice) = some (JsVal.bool false) ∧
    truthy (JsVal.bool false) = false ∧
    greetToolV1.callFunc inAlice = .ok aliceGreeting ∧
    ((invokeV1 greetToolV1 memStore
        [(keyFactory greetToolV1.name inAlice, JsVal.bool false)] inAlice
        (some ⟨none⟩)).dispatches = 1 ∧
      (invokeV1 greetToolV1 memStore
        [(keyFactory greetToolV1.name inAlice, JsVal.bool false)] inAlice
        (some ⟨none⟩)).gets = 1 ∧
      (invokeV1 greetToolV1 memStore
        [(keyFactory greetToolV1.name inAlice, JsVal.bool false)] inAlice
        (some ⟨none⟩)).sets = 1 ∧
      (invokeV1 greetToolV1 memStore
        [(keyFactory greetToolV1.name inAlice, JsVal.bool false)] inAlice
        (some ⟨none⟩)).store =
        memInsert [(keyFactory greetToolV1.name inAlice, JsVal.bool false)]
          (keyFactory greetToolV1.name inAlice) aliceGreeting) := by
  refine ⟨rfl, rfl, rfl, rfl, by simp [memLookup], rfl, rfl, ?_⟩
  exact c10_falsy_cached_redispatch greetToolV1
    [(keyFactory greetToolV1.name inAlice, JsVal.bool false)] inAlice
    (JsVal.bool false) aliceGreeting 60000 rfl rfl rfl rfl (by simp [memLookup])
    rfl rfl

/- ===== C3 ===== -/

/-- Claim C3 as stated is refuted by the Ajv variant: its invoke does not consult
intents, so an action Descriptor with a cache TTL still reads from and writes to a
cache store (and, on a miss, dispatches twice). -/
theorem c3_counterexample :
    greetActionToolV2.intents = some .action ∧
    greetActionToolV2.cacheTTL = some 60000 ∧
    (invokeV2 greetActionToolV2 inAlice (some ⟨none⟩)).gets = 1 ∧
    (invokeV2 greetActionToolV2 inAlice (some ⟨none⟩)).sets = 1 ∧
    (invokeV2 greetActionToolV2 inAlice (some ⟨none⟩)).dispatches = 2 :=
  ⟨rfl, rfl, rfl, rfl, rfl⟩

/-- Claim C3, amended: in the TypeBox module, a Descriptor with intents action and a
cache TTL never reads from or writes to the store (the used store state is returned
unchanged) and dispatches on every call whose input passes validation; the Ajv
variant does not consult intents and uses a cache store even for action
descriptors. -/
theorem c3_action_never_touches_store {σ : Type} (t : ToolV1) (B : StoreBehavior σ)
    (s0 : σ) (x : JsVal) (opts : Option (InvokeOptionsV1 σ))
    (hAct : t.intents = some .action) :
    (invokeV1 t B s0 x opts).gets = 0 ∧
    (invokeV1 t B s0 x opts).sets = 0 ∧
    (invokeV1 t B s0 x opts).store = s0 ∧
    ((t.inputValidationOn = false ∨ t.inputErrors x = []) →
      (invokeV1 t B s0 x opts).dispatches = 1) := by
  have hR : isResource t = false := by simp [isResource, hAct]
  unfold invokeV1
  cases hV : (t.inputValidationOn && ((t.inputErrors x).head?).isSome) with
  | true =>
    refine ⟨by simp [hV], by simp [hV], by simp [hV], ?_⟩
    intro h
    exfalso
    rcases h with h | h
    · rw [h] at hV
      simp at hV
    · rw [h] at hV
      simp at hV
  | false =>
    rcases hC : t.callFunc x with e | r
    · simp [hV, hR, hC]
    · simp [hV, hR, hC, finishResultValidation_gets, finishResultValidation_sets,
        finishResultValidation_store, finishResultValidation_dispatches]

/-- Witness for c3_action_never_touches_store at a concrete input. -/
theorem c3_action_bypass_witness :
    greetActionToolV1.intents = some .action ∧
    ((invokeV1 greetActionToolV1 memStore [] inAlice (some ⟨none⟩)).gets = 0 ∧
      (invokeV1 greetActionToolV1 memStore [] inAlice (some ⟨none⟩)).sets = 0 ∧
      (invokeV1 greetActionToolV1 memStore [] inAlice (some ⟨none⟩)).store = [] ∧
      ((greetActionToolV1.inputValidationOn = false ∨
          greetActionToolV1.inputErrors inAlice = []) →
        (invokeV1 greetActionToolV1 memStore [] inAlice (some ⟨none⟩)).dispatches
          = 1)) := by
  refine ⟨rfl, ?_⟩
  exact c3_action_never_touches_store greetActionToolV1 memStore [] inAlice
    (some ⟨none⟩) rfl

/- ===== C4 ===== -/

/-- Claim C4 as stated is refuted: calling invoke in the way the scenario writes it,
with the options argument omitted, makes a resource Descriptor with a cache TTL
reject both calls with a TypeError, so the two identical calls dispatch zero times
in total and the second call does not return a cached value. -/
theorem c4_counterexample :
    (invokeV1 greetToolV1 memStore [] inAlice none).result =
      .error .typeErrorUndefinedOptions ∧
    (invokeV1 greetToolV1 memStore [] inAlice none).dispatches = 0 ∧
    (invokeV1 greetToolV1 memStore
      ((invokeV1 greetToolV1 memStore [] inAlice none).store) inAlice
      none).dispatches = 0 :=
  ⟨rfl, rfl, rfl⟩

/-- Claim C4, amended: provided an options object is passed (without cache false)
and the dispatched result is truthy and passes result validation, two invocations of
a resource Descriptor with a cache TTL on the same input within the TTL dispatch the
underlying function exactly once: the first call dispatches, stores and validates;
the second call returns the cached value with no dispatch, no store write and no
result re-validation.  With the options argument omitted, invoke instead rejects
with a TypeError. -/
theorem c4_cache_hit_two_calls (t : ToolV1) (x r : JsVal) (n : Nat)
    (hInt : t.intents = some .resource)
    (hTTL : t.cacheTTL = some n)
    (hn : (n != 0) = true)
    (hIn : t.inputErrors x = [])
    (hCall : t.callFunc x = .ok r)
    (hTr : truthy r = true)
    (hRVon : t.resultValidationOn = true)
    (hRVok : t.resultErrors r = []) :
    invokeV1 t memStore [] x (some ⟨none⟩) =
      ⟨.ok r, [(keyFactory t.name x, r)], 1, 1, 1, 1⟩ ∧
    invokeV1 t memStore [(keyFactory t.name x, r)] x (some ⟨none⟩) =
      ⟨.ok r, [(keyFactory t.name x, r)], 0, 1, 0, 0⟩ := by
  constructor
  · unfold invokeV1
    simp [cacheNotDisabled, cacheConfigured, isResource, hInt, hTTL, hn, hIn,
      memStore, memLookup, memInsert, hCall, truthy, finishResultValidation,
      hRVon, hRVok]
  · unfold invokeV1
    simp [cacheNotDisabled, cacheConfigured, isResource, hInt, hTTL, hn, hIn,
      memStore, memLookup, hTr]

/-- Witness for c4_cache_hit_two_calls at a concrete input. -/
theorem c4_cache_hit_witness :
    greetToolV1.intents = some .resource ∧
    greetToolV1.cacheTTL = some 60000 ∧
    ((60000 : Nat) != 0) = true ∧
    greetToolV1.inputErrors inAlice = [] ∧
    greetToolV1.callFunc inAlice = .ok aliceGreeting ∧
    truthy aliceGreeting = true ∧
    greetToolV1.resultValidationOn = true ∧
    greetToolV1.resultErrors aliceGreeting = [] ∧
    (invokeV1 greetToolV1 memStore [] inAlice (some ⟨none⟩) =
      ⟨.ok aliceGreeting, [(keyFactory greetToolV1.name inAlice, aliceGreeting)],
        1, 1, 1, 1⟩ ∧
    invokeV1 greetToolV1 memStore
        [(keyFactory greetToolV1.name inAlice, aliceGreeting)] inAlice
        (some ⟨none⟩) =
      ⟨.ok aliceGreeting, [(keyFactory greetToolV1.name inAlice, aliceGreeting)],
        0, 1, 0, 0⟩) := by
  refine ⟨rfl, rfl, rfl, rfl, rfl, rfl, rfl, rfl, ?_⟩
  exact c4_cache_hit_two_calls greetToolV1 inAlice aliceGreeting 60000
    rfl rfl rfl rfl rfl rfl rfl rfl
